import Mathlib

/-!
Verification of the AC97 PCI shell (`devices/src/pci/ac97.rs`) and the
video encoder stub (`devices/src/virtio/video/encoder/mod.rs`) of crosvm.

The PCI shell `Ac97Dev` is embedded directly from the source.  Its
collaborators — `Ac97Mixer`, `Ac97BusMaster` (files `ac97_mixer.rs`,
`ac97_bus_master.rs`), the register-size constants (`ac97_regs.rs`), the
configuration-space bank (`pci_configuration.rs`) and the system allocator
(`resources`) — are not part of the sources under study; they are modelled
from the specification, as indicated on each definition.

Machine integers are modelled as `Nat` with explicit `% 2^w` masks at the
points where the Rust types (`u8`, `u16`, `u32`) bound a value.
-/

/-- A `u8` value entering from an untyped byte buffer: the Rust type bounds
it below 256, which the model makes explicit. -/
def toU8 (n : Nat) : Nat := n % 2 ^ 8

/-- Modelled from the spec: `ac97_regs.rs` is not among the sources; the
spec fixes the mixer window to a constant size `MIXER_REGS_SIZE` (BAR0). -/
def MIXER_REGS_SIZE : Nat := 0x100

/-- Modelled from the spec: `ac97_regs.rs` is not among the sources; the
spec fixes the bus-master window to a constant size `MASTER_REGS_SIZE`
(BAR1). -/
def MASTER_REGS_SIZE : Nat := 0x400

/-- `// Use 82801AA because it's what qemu does.` -/
def PCI_DEVICE_ID_INTEL_82801AA_5 : Nat := 0x2415

/-- Modelled from the spec: §4.2 — the mixer register bank stores one
16-bit value per offset (`ac97_mixer.rs` is not among the sources). -/
structure Ac97Mixer where
  regs : Nat → Nat

/-- Modelled from the spec: reset defaults are zero for never-written
offsets. -/
def Ac97Mixer.new : Ac97Mixer := ⟨fun _ => 0⟩

/-- Modelled from the spec: `readWord(offset) -> u16` returns the stored
value. -/
def Ac97Mixer.readw (m : Ac97Mixer) (offset : Nat) : Nat :=
  m.regs offset % 2 ^ 16

/-- Modelled from the spec: `writeWord(offset, value)` stores the value. -/
def Ac97Mixer.writew (m : Ac97Mixer) (offset val : Nat) : Ac97Mixer :=
  ⟨fun o => if o = offset then val % 2 ^ 16 else m.regs o⟩

/-- One operation dispatched into the bus-master engine through its
register interface: a byte/word/longword write, or the delivery of the
interrupt event pair via `set_irq_event_fd`.  Event handles (`EventFd`)
are identified by `Nat` tags. -/
inductive BmOp where
  | writeb (offset val : Nat)
  | writew (offset val : Nat)
  | writel (offset val : Nat)
  | setIrq (evt resample : Nat)
deriving DecidableEq

/-- Modelled from the spec: `ac97_bus_master.rs` is not among the sources.
For the shell only the engine's register interface matters; the model
keeps the trace `ops` of operations dispatched into the engine, read
oracles `readbF`/`readwF`/`readlF` for the engine's register reads, and
`mixerView`, the engine's current view of the mixer settings
(`update_mixer_settings`). -/
structure Ac97BusMaster where
  readbF : Nat → Nat
  readwF : Nat → Nat
  readlF : Nat → Nat
  ops : List BmOp
  mixerView : Ac97Mixer

def Ac97BusMaster.readb (bm : Ac97BusMaster) (offset : Nat) : Nat :=
  bm.readbF offset % 2 ^ 8

def Ac97BusMaster.readw (bm : Ac97BusMaster) (offset : Nat) : Nat :=
  bm.readwF offset % 2 ^ 16

def Ac97BusMaster.readl (bm : Ac97BusMaster) (offset : Nat) : Nat :=
  bm.readlF offset % 2 ^ 32

def Ac97BusMaster.writeb (bm : Ac97BusMaster) (offset val : Nat)
    (_mixer : Ac97Mixer) : Ac97BusMaster :=
  { bm with ops := bm.ops ++ [BmOp.writeb offset val] }

def Ac97BusMaster.writew (bm : Ac97BusMaster) (offset val : Nat) :
    Ac97BusMaster :=
  { bm with ops := bm.ops ++ [BmOp.writew offset val] }

def Ac97BusMaster.writel (bm : Ac97BusMaster) (offset val : Nat) :
    Ac97BusMaster :=
  { bm with ops := bm.ops ++ [BmOp.writel offset val] }

/-- Modelled from the spec: delivery of the interrupt event pair into the
engine; recorded on the engine's operation trace. -/
def Ac97BusMaster.set_irq_event_fd (bm : Ac97BusMaster)
    (evt resample : Nat) : Ac97BusMaster :=
  { bm with ops := bm.ops ++ [BmOp.setIrq evt resample] }

/-- Modelled from the spec: `applyMixerSettings(bank)` refreshes the
engine's view of the mixer bank. -/
def Ac97BusMaster.update_mixer_settings (bm : Ac97BusMaster)
    (m : Ac97Mixer) : Ac97BusMaster :=
  { bm with mixerView := m }

/-- The interrupt-handle pairs ever delivered into the engine, in order. -/
def Ac97BusMaster.irqDeliveries (bm : Ac97BusMaster) : List (Nat × Nat) :=
  bm.ops.filterMap fun op =>
    match op with
    | BmOp.setIrq e r => some (e, r)
    | _ => none

/-- PCI class code (only the constructor the device uses, plus another for
contrast). -/
inductive PciClassCode where
  | MultimediaController
  | Other
deriving DecidableEq

inductive PciMultimediaSubclass where
  | AudioDevice
  | Other
deriving DecidableEq

inductive PciHeaderType where
  | Device
  | Bridge
deriving DecidableEq

inductive PciInterruptPin where
  | IntA
  | IntB
  | IntC
  | IntD
deriving DecidableEq

structure PciAddress where
  bus : Nat
  dev : Nat
  func : Nat
deriving DecidableEq

/-- `PciBarConfiguration` builder (external collaborator, modelled from
the spec: index, address and size of one BAR). -/
structure PciBarConfiguration where
  reg_idx : Nat
  addr : Nat
  size : Nat
deriving DecidableEq

def PciBarConfiguration.default : PciBarConfiguration := ⟨0, 0, 0⟩

def PciBarConfiguration.set_register_index (c : PciBarConfiguration)
    (i : Nat) : PciBarConfiguration := { c with reg_idx := i }

def PciBarConfiguration.set_address (c : PciBarConfiguration) (a : Nat) :
    PciBarConfiguration := { c with addr := a }

def PciBarConfiguration.set_size (c : PciBarConfiguration) (s : Nat) :
    PciBarConfiguration := { c with size := s }

/-- Modelled from the spec: the generic configuration-space bank
(`pci_configuration.rs`) is an external collaborator.  It records the
fixed identity constants, the registered BARs, the IRQ routing, and a
trace of the pass-through register writes (which, per the spec, never
touch the identity constants). -/
structure PciConfiguration where
  vendor_id : Nat
  device_id : Nat
  class_code : PciClassCode
  subclass : PciMultimediaSubclass
  header_type : PciHeaderType
  subsystem_vendor_id : Nat
  subsystem_id : Nat
  bars : List PciBarConfiguration
  irq : Option (Nat × PciInterruptPin)
  reg_writes : List (Nat × Nat × List Nat)

def PciConfiguration.new (vid did : Nat) (cc : PciClassCode)
    (sc : PciMultimediaSubclass) (ht : PciHeaderType) (svid sid : Nat) :
    PciConfiguration :=
  ⟨vid, did, cc, sc, ht, svid, sid, [], none, []⟩

/-- Modelled from the spec: configuration space rejects a BAR with a
duplicate index; the error payload is the offending index. -/
def PciConfiguration.add_pci_bar (c : PciConfiguration)
    (cfg : PciBarConfiguration) : Except Nat PciConfiguration :=
  if c.bars.any (fun b => b.reg_idx == cfg.reg_idx) then
    Except.error cfg.reg_idx
  else
    Except.ok { c with bars := c.bars ++ [cfg] }

/-- Modelled from the spec: the base address of BAR `n` as the bank
reports it (zero while unassigned). -/
def PciConfiguration.get_bar_addr (c : PciConfiguration) (n : Nat) : Nat :=
  match c.bars.find? (fun b => b.reg_idx == n) with
  | some b => b.addr
  | none => 0

def PciConfiguration.set_irq (c : PciConfiguration) (num : Nat)
    (pin : PciInterruptPin) : PciConfiguration :=
  { c with irq := some (num, pin) }

/-- Modelled from the spec: `writeConfigRegister` is a pass-through to the
external bank, not further specified; the model records the call. -/
def PciConfiguration.write_reg (c : PciConfiguration)
    (reg_idx offset : Nat) (data : List Nat) : PciConfiguration :=
  { c with reg_writes := c.reg_writes ++ [(reg_idx, offset, data)] }

/-- The identity constants of §6, bundled so that immutability is one
equation. -/
def PciConfiguration.identity (c : PciConfiguration) :
    Nat × Nat × PciClassCode × PciMultimediaSubclass × PciHeaderType ×
      Nat × Nat :=
  (c.vendor_id, c.device_id, c.class_code, c.subclass, c.header_type,
   c.subsystem_vendor_id, c.subsystem_id)

/-- One request the device places on the allocator:
`allocate_with_align(size, alloc, tag, align)` on the `MmioType::Low`
allocator. -/
structure AllocRequest where
  size : Nat
  bus : Nat
  dev : Nat
  func : Nat
  bar : Nat
  tag : String
  align : Nat
deriving DecidableEq

/-- Modelled from the spec: the system allocator is an external
collaborator.  It is an oracle: `responses` scripts the outcome of each
successive request (`some addr` = success), and `requests` accumulates
the requests the device placed. -/
structure SystemAllocator where
  responses : List (Option Nat)
  requests : List AllocRequest

def SystemAllocator.allocate_with_align (res : SystemAllocator)
    (size : Nat) (a : PciAddress) (bar : Nat) (tag : String)
    (align : Nat) : Except Nat Nat × SystemAllocator :=
  let res' : SystemAllocator :=
    ⟨res.responses.tail,
     res.requests ++ [⟨size, a.bus, a.dev, a.func, bar, tag, align⟩]⟩
  match res.responses.head? with
  | some (some addr) => (Except.ok addr, res')
  | _ => (Except.error 0, res')

/-- `pci_device::Error`, the variants `allocate_io_bars` can produce. -/
inductive PciDeviceError where
  | IoAllocationFailed (size : Nat) (e : Nat)
  | IoRegistrationFailed (addr : Nat) (e : Nat)
deriving DecidableEq

/-- Outcome of a call that may hit a Rust `expect`/`panic` path. -/
inductive PanicOr (α : Type) where
  | panic
  | ok (a : α)

/-- `Ac97Dev` (`ac97.rs`, lines 84–93): the PCI shell state. -/
structure Ac97Dev where
  config_regs : PciConfiguration
  pci_address : Option PciAddress
  irq_evt : Option Nat
  irq_resample_evt : Option Nat
  bus_master : Ac97BusMaster
  mixer : Ac97Mixer

/-- `Ac97Dev::new` (lines 98–118); the guest memory and audio server only
reach the bus master, so the model takes the constructed engine as the
parameter. -/
def Ac97Dev.new (bm : Ac97BusMaster) : Ac97Dev :=
  { config_regs :=
      PciConfiguration.new 0x8086 PCI_DEVICE_ID_INTEL_82801AA_5
        PciClassCode.MultimediaController PciMultimediaSubclass.AudioDevice
        PciHeaderType.Device 0x8086 0x1
    pci_address := none
    irq_evt := none
    irq_resample_evt := none
    bus_master := bm
    mixer := Ac97Mixer.new }

/-- `Ac97Dev::read_mixer` (lines 154–164): only 2-byte accesses reach the
mixer; the word is unpacked little-endian into the buffer; other widths
are logged and leave the buffer alone. -/
def Ac97Dev.read_mixer (dev : Ac97Dev) (offset : Nat) (data : List Nat) :
    Ac97Dev × List Nat :=
  if data.length = 2 then
    (dev, [dev.mixer.readw offset % 2 ^ 8,
           dev.mixer.readw offset / 2 ^ 8 % 2 ^ 8])
  else
    (dev, data)

/-- `Ac97Dev::write_mixer` (lines 166–176): only 2-byte accesses reach the
mixer (little-endian assembly); any width is followed by
`update_mixer_settings` on the bus master. -/
def Ac97Dev.write_mixer (dev : Ac97Dev) (offset : Nat) (data : List Nat) :
    Ac97Dev :=
  let mixer' :=
    if data.length = 2 then
      dev.mixer.writew offset (toU8 (data.getD 0 0) + toU8 (data.getD 1 0) * 2 ^ 8)
    else
      dev.mixer
  { dev with
    mixer := mixer'
    bus_master := dev.bus_master.update_mixer_settings mixer' }

/-- `Ac97Dev::read_bus_master` (lines 178–195): widths 1/2/4 dispatch to
`readb`/`readw`/`readl` with little-endian unpacking; other widths are
logged and leave the buffer alone. -/
def Ac97Dev.read_bus_master (dev : Ac97Dev) (offset : Nat)
    (data : List Nat) : Ac97Dev × List Nat :=
  if data.length = 1 then
    (dev, [dev.bus_master.readb offset])
  else if data.length = 2 then
    (dev, [dev.bus_master.readw offset % 2 ^ 8,
           dev.bus_master.readw offset / 2 ^ 8 % 2 ^ 8])
  else if data.length = 4 then
    (dev, [dev.bus_master.readl offset % 2 ^ 8,
           dev.bus_master.readl offset / 2 ^ 8 % 2 ^ 8,
           dev.bus_master.readl offset / 2 ^ 16 % 2 ^ 8,
           dev.bus_master.readl offset / 2 ^ 24 % 2 ^ 8])
  else
    (dev, data)

/-- `Ac97Dev::write_bus_master` (lines 197–212): widths 1/2/4 dispatch to
`writeb`/`writew`/`writel` with little-endian assembly; other widths are
logged and dropped. -/
def Ac97Dev.write_bus_master (dev : Ac97Dev) (offset : Nat)
    (data : List Nat) : Ac97Dev :=
  if data.length = 1 then
    { dev with
      bus_master := dev.bus_master.writeb offset (toU8 (data.getD 0 0)) dev.mixer }
  else if data.length = 2 then
    { dev with
      bus_master :=
        dev.bus_master.writew offset
          (toU8 (data.getD 0 0) + toU8 (data.getD 1 0) * 2 ^ 8) }
  else if data.length = 4 then
    { dev with
      bus_master :=
        dev.bus_master.writel offset
          (toU8 (data.getD 0 0) + toU8 (data.getD 1 0) * 2 ^ 8 +
           toU8 (data.getD 2 0) * 2 ^ 16 + toU8 (data.getD 3 0) * 2 ^ 24) }
  else
    dev

/-- `PciDevice::assign_address` for `Ac97Dev` (lines 220–222). -/
def Ac97Dev.assign_address (dev : Ac97Dev) (address : PciAddress) :
    Ac97Dev :=
  { dev with pci_address := some address }

/-- `PciDevice::assign_irq` for `Ac97Dev` (lines 224–234): records the IRQ
routing in configuration space and parks the two event handles in the
pending slots. -/
def Ac97Dev.assign_irq (dev : Ac97Dev) (irq_evt irq_resample_evt : Nat)
    (irq_num : Nat) (irq_pin : PciInterruptPin) : Ac97Dev :=
  { dev with
    config_regs := dev.config_regs.set_irq (irq_num % 2 ^ 8) irq_pin
    irq_evt := some irq_evt
    irq_resample_evt := some irq_resample_evt }

/-- `PciDevice::allocate_io_bars` for `Ac97Dev` (lines 236–287).  The
`expect` on the missing PCI address is the `panic` outcome. -/
def Ac97Dev.allocate_io_bars (dev : Ac97Dev) (resources : SystemAllocator) :
    PanicOr (Except PciDeviceError (List (Nat × Nat)) × Ac97Dev ×
             SystemAllocator) :=
  match dev.pci_address with
  | none => PanicOr.panic
  | some address =>
    match resources.allocate_with_align MIXER_REGS_SIZE address 0
        "ac97-mixer_regs" MIXER_REGS_SIZE with
    | (Except.error e, res1) =>
      PanicOr.ok
        (Except.error (PciDeviceError.IoAllocationFailed MIXER_REGS_SIZE e),
         dev, res1)
    | (Except.ok mixer_regs_addr, res1) =>
      match dev.config_regs.add_pci_bar
          (((PciBarConfiguration.default.set_register_index 0).set_address
              mixer_regs_addr).set_size MIXER_REGS_SIZE) with
      | Except.error e =>
        PanicOr.ok
          (Except.error
            (PciDeviceError.IoRegistrationFailed mixer_regs_addr e),
           dev, res1)
      | Except.ok cfg1 =>
        match res1.allocate_with_align MASTER_REGS_SIZE address 1
            "ac97-master_regs" MASTER_REGS_SIZE with
        | (Except.error e, res2) =>
          PanicOr.ok
            (Except.error
              (PciDeviceError.IoAllocationFailed MASTER_REGS_SIZE e),
             { dev with config_regs := cfg1 }, res2)
        | (Except.ok master_regs_addr, res2) =>
          match cfg1.add_pci_bar
              (((PciBarConfiguration.default.set_register_index 1).set_address
                  master_regs_addr).set_size MASTER_REGS_SIZE) with
          | Except.error e =>
            PanicOr.ok
              (Except.error
                (PciDeviceError.IoRegistrationFailed master_regs_addr e),
               { dev with config_regs := cfg1 }, res2)
          | Except.ok cfg2 =>
            PanicOr.ok
              (Except.ok
                [(mixer_regs_addr, MIXER_REGS_SIZE),
                 (master_regs_addr, MASTER_REGS_SIZE)],
               { dev with config_regs := cfg2 }, res2)

/-- `PciDevice::write_config_register` for `Ac97Dev` (lines 293–295). -/
def Ac97Dev.write_config_register (dev : Ac97Dev) (reg_idx offset : Nat)
    (data : List Nat) : Ac97Dev :=
  { dev with config_regs := dev.config_regs.write_reg reg_idx offset data }

/-- The mixer (BAR0) window test, exactly the guard of
`read_bar`/`write_bar`. -/
def Ac97Dev.inMixerWindow (dev : Ac97Dev) (addr : Nat) : Prop :=
  dev.config_regs.get_bar_addr 0 ≤ addr ∧
    addr < dev.config_regs.get_bar_addr 0 + MIXER_REGS_SIZE

/-- The bus-master (BAR1) window test, exactly the guard of
`read_bar`/`write_bar`. -/
def Ac97Dev.inMasterWindow (dev : Ac97Dev) (addr : Nat) : Prop :=
  dev.config_regs.get_bar_addr 1 ≤ addr ∧
    addr < dev.config_regs.get_bar_addr 1 + MASTER_REGS_SIZE

instance (dev : Ac97Dev) (addr : Nat) :
    Decidable (Ac97Dev.inMixerWindow dev addr) :=
  inferInstanceAs (Decidable (_ ∧ _))

instance (dev : Ac97Dev) (addr : Nat) :
    Decidable (Ac97Dev.inMasterWindow dev addr) :=
  inferInstanceAs (Decidable (_ ∧ _))

/-- `PciDevice::read_bar` for `Ac97Dev` (lines 305–315): address-range
classification into the mixer window (BAR0), the bus-master window
(BAR1), or a silent no-op. -/
def Ac97Dev.read_bar (dev : Ac97Dev) (addr : Nat) (data : List Nat) :
    Ac97Dev × List Nat :=
  if dev.inMixerWindow addr then
    dev.read_mixer (addr - dev.config_regs.get_bar_addr 0) data
  else if dev.inMasterWindow addr then
    dev.read_bus_master (addr - dev.config_regs.get_bar_addr 1) data
  else
    (dev, data)

/-- `PciDevice::write_bar` for `Ac97Dev` (lines 317–333).  On a bus-master
window hit, `take()` runs on BOTH pending slots before the pattern match,
and the handles are delivered to the engine only when both were
populated; then the write is dispatched. -/
def Ac97Dev.write_bar (dev : Ac97Dev) (addr : Nat) (data : List Nat) :
    Ac97Dev :=
  if dev.inMixerWindow addr then
    dev.write_mixer (addr - dev.config_regs.get_bar_addr 0) data
  else if dev.inMasterWindow addr then
    (match dev.irq_evt, dev.irq_resample_evt with
     | some e, some r =>
       { dev with
         irq_evt := none
         irq_resample_evt := none
         bus_master := dev.bus_master.set_irq_event_fd e r }
     | _, _ =>
       { dev with
         irq_evt := none
         irq_resample_evt := none }).write_bus_master
      (addr - dev.config_regs.get_bar_addr 1) data
  else
    dev

/-- The guest-visible operations on one `Ac97Dev` instance. -/
inductive DevOp where
  | assignAddress (a : PciAddress)
  | assignIrq (evt resample irqNum : Nat) (pin : PciInterruptPin)
  | readBar (addr : Nat) (data : List Nat)
  | writeBar (addr : Nat) (data : List Nat)
  | writeConfig (regIdx offset : Nat) (data : List Nat)

def Ac97Dev.step (d : Ac97Dev) : DevOp → Ac97Dev
  | DevOp.assignAddress a => d.assign_address a
  | DevOp.assignIrq e r n p => d.assign_irq e r n p
  | DevOp.readBar addr data => (d.read_bar addr data).1
  | DevOp.writeBar addr data => d.write_bar addr data
  | DevOp.writeConfig i o data => d.write_config_register i o data

def Ac97Dev.run (d : Ac97Dev) : List DevOp → Ac97Dev
  | [] => d
  | op :: ops => (d.step op).run ops

def DevOp.isAssignIrq : DevOp → Bool
  | DevOp.assignIrq _ _ _ _ => true
  | _ => false

def DevOp.isWriteBar : DevOp → Bool
  | DevOp.writeBar _ _ => true
  | _ => false

/-- 1 when both pending interrupt-handle slots are populated, else 0. -/
def Ac97Dev.pendingIrq (d : Ac97Dev) : Nat :=
  match d.irq_evt, d.irq_resample_evt with
  | some _, some _ => 1
  | _, _ => 0

/-- Number of `assignIrq` operations in a sequence. -/
def assignCount : List DevOp → Nat
  | [] => 0
  | op :: ops => (if op.isAssignIrq then 1 else 0) + assignCount ops

def BmOp.isSetIrq : BmOp → Bool
  | BmOp.setIrq _ _ => true
  | _ => false

/-- The interrupt-handle pairs among a raw engine-operation list (the
deliveries contributed by that list). -/
def setIrqPairs (l : List BmOp) : List (Nat × Nat) :=
  l.filterMap fun op =>
    match op with
    | BmOp.setIrq e r => some (e, r)
    | _ => none

/-! ## The video encoder stub (`devices/src/virtio/video/encoder/mod.rs`) -/

/-- `VideoError::InvalidOperation`; the other variants of the error type
live in `error.rs`, outside the sources, and the stub never produces
them. -/
inductive VideoError where
  | InvalidOperation
deriving DecidableEq

/-- `Encoder` (line 15): a unit struct, no state. -/
structure Encoder where
deriving DecidableEq

def Encoder.new : Encoder := {}

/-- `Encoder::process_cmd` (lines 24–31): unconditionally
`Err(VideoError::InvalidOperation)`.  The command, poll-context,
resource-bridge and response types are external; the stub is uniform in
them. -/
def Encoder.process_cmd {Cmd Ctx RB Resp : Type} (e : Encoder)
    (_cmd : Cmd) (_poll_ctx : Ctx) (_resource_bridge : RB) :
    Encoder × Except VideoError Resp :=
  (e, Except.error VideoError.InvalidOperation)

/-- `Encoder::process_event_fd` (lines 33–35): unconditionally `None`. -/
def Encoder.process_event_fd {Resp : Type} (e : Encoder)
    (_stream_id : Nat) : Encoder × Option (List Resp) :=
  (e, none)

/-- `Encoder::take_resource_id_to_notify_eos` (lines 37–39):
unconditionally `None`. -/
def Encoder.take_resource_id_to_notify_eos (e : Encoder)
    (_stream_id : Nat) : Encoder × Option Nat :=
  (e, none)

/-! ## Concrete instances used by witnesses -/

/-- A bus master with zero read oracles, an empty operation trace and the
reset mixer view. -/
def bmSample : Ac97BusMaster :=
  ⟨fun _ => 0, fun _ => 0, fun _ => 0, [], Ac97Mixer.new⟩

/-- A freshly constructed device whose two BARs are registered at
`0x1000` (mixer) and `0x2000` (bus master). -/
def devSample : Ac97Dev :=
  { Ac97Dev.new bmSample with
    config_regs :=
      { (Ac97Dev.new bmSample).config_regs with
        bars := [⟨0, 0x1000, MIXER_REGS_SIZE⟩,
                 ⟨1, 0x2000, MASTER_REGS_SIZE⟩] } }

/-! ## Helper lemmas on the dispatch structure -/

theorem write_bar_of_mixer (d : Ac97Dev) (addr : Nat) (data : List Nat)
    (h : d.inMixerWindow addr) :
    d.write_bar addr data =
      d.write_mixer (addr - d.config_regs.get_bar_addr 0) data := by
  rw [Ac97Dev.write_bar, if_pos h]

theorem read_bar_of_mixer (d : Ac97Dev) (addr : Nat) (data : List Nat)
    (h : d.inMixerWindow addr) :
    d.read_bar addr data =
      d.read_mixer (addr - d.config_regs.get_bar_addr 0) data := by
  rw [Ac97Dev.read_bar, if_pos h]

theorem write_mixer_config_regs (d : Ac97Dev) (offset : Nat)
    (data : List Nat) :
    (d.write_mixer offset data).config_regs = d.config_regs := rfl

/-! ## Claims -/

/-- C2: every access to the mixer (BAR0) window whose data length is not
exactly 2 bytes leaves the mixer register bank unchanged: such a read
returns the device unchanged and does not mutate the caller's buffer,
and such a write leaves the mixer bank exactly as it was. -/
theorem C2_mixer_invalid_width_noop (d : Ac97Dev) (addr : Nat)
    (data : List Nat) (hw : d.inMixerWindow addr)
    (hl : data.length ≠ 2) :
    d.read_bar addr data = (d, data) ∧
      (d.write_bar addr data).mixer = d.mixer := by
  constructor
  · rw [read_bar_of_mixer d addr data hw, Ac97Dev.read_mixer, if_neg hl]
  · rw [write_bar_of_mixer d addr data hw, Ac97Dev.write_mixer]
    simp [hl]

/-- C2 witness: a 3-byte access at `0x1004`, inside `devSample`'s mixer
window. -/
theorem C2_witness :
    devSample.read_bar 0x1004 [1, 2, 3] = (devSample, [1, 2, 3]) ∧
      (devSample.write_bar 0x1004 [1, 2, 3]).mixer = devSample.mixer :=
  C2_mixer_invalid_width_noop devSample 0x1004 [1, 2, 3] (by decide)
    (by decide)

/-- C3: writing a 16-bit value (as two little-endian bytes) at a valid
mixer offset through the BAR0 window, then reading the same offset back
with a 2-byte access, returns exactly the written bytes. -/
theorem C3_mixer_round_trip (d : Ac97Dev) (offset lo hi : Nat)
    (buf : List Nat) (hoff : offset < MIXER_REGS_SIZE)
    (heven : offset % 2 = 0) (hlo : lo < 2 ^ 8) (hhi : hi < 2 ^ 8)
    (hbuf : buf.length = 2) :
    ((d.write_bar (d.config_regs.get_bar_addr 0 + offset)
        [lo, hi]).read_bar (d.config_regs.get_bar_addr 0 + offset)
        buf).2 = [lo, hi] := by
  have hw : d.inMixerWindow (d.config_regs.get_bar_addr 0 + offset) :=
    ⟨Nat.le_add_right _ _, by omega⟩
  rw [write_bar_of_mixer _ _ _ hw]
  have hw1 : (d.write_mixer
      (d.config_regs.get_bar_addr 0 + offset -
        d.config_regs.get_bar_addr 0) [lo, hi]).inMixerWindow
      (d.config_regs.get_bar_addr 0 + offset) := hw
  rw [read_bar_of_mixer _ _ _ hw1, write_mixer_config_regs]
  rw [Ac97Dev.read_mixer, if_pos hbuf]
  simp only [Ac97Dev.write_mixer, Ac97Mixer.writew, Ac97Mixer.readw,
    toU8, Nat.add_sub_cancel_left, List.length_cons, List.length_nil,
    List.getD, List.get?, Option.getD]
  simp only [if_true]
  simp only [List.cons.injEq, and_true]
  omega

/-- C3 witness: value `0xBEE2` written at mixer offset 2 of `devSample`
reads back as its little-endian bytes. -/
theorem C3_witness :
    ((devSample.write_bar (devSample.config_regs.get_bar_addr 0 + 2)
        [0xE2, 0xBE]).read_bar
        (devSample.config_regs.get_bar_addr 0 + 2) [0, 0]).2 =
      [0xE2, 0xBE] :=
  C3_mixer_round_trip devSample 2 0xE2 0xBE [0, 0] (by decide) (by decide)
    (by decide) (by decide) (by decide)

/-- C6: an access at an address lying in neither BAR window is a silent
no-op: a read returns the device unchanged with the caller's buffer
unmodified, and a write returns the device unchanged. -/
theorem C6_outside_windows_noop (d : Ac97Dev) (addr : Nat)
    (data : List Nat) (h0 : ¬ d.inMixerWindow addr)
    (h1 : ¬ d.inMasterWindow addr) :
    d.read_bar addr data = (d, data) ∧ d.write_bar addr data = d := by
  constructor
  · rw [Ac97Dev.read_bar, if_neg h0, if_neg h1]
  · rw [Ac97Dev.write_bar, if_neg h0, if_neg h1]

/-- C6 witness: address `0x5000` lies outside both windows of
`devSample`. -/
theorem C6_witness :
    devSample.read_bar 0x5000 [7] = (devSample, [7]) ∧
      devSample.write_bar 0x5000 [7] = devSample :=
  C6_outside_windows_noop devSample 0x5000 [7] (by decide) (by decide)

/-- C10: every write into the mixer (BAR0) window — of any data length,
valid or not — ends with `update_mixer_settings`, so afterwards the bus
master's view of the mixer equals the device's (possibly updated) mixer
bank. -/
theorem C10_mixer_write_refreshes_engine (d : Ac97Dev) (addr : Nat)
    (data : List Nat) (hw : d.inMixerWindow addr) :
    (d.write_bar addr data).bus_master.mixerView =
      (d.write_bar addr data).mixer := by
  rw [write_bar_of_mixer d addr data hw]
  rfl

/-- C10 witness: a 3-byte (invalid-width) mixer write still refreshes the
engine's mixer view. -/
theorem C10_witness :
    (devSample.write_bar 0x1004 [1, 2, 3]).bus_master.mixerView =
      (devSample.write_bar 0x1004 [1, 2, 3]).mixer :=
  C10_mixer_write_refreshes_engine devSample 0x1004 [1, 2, 3] (by decide)

/-- C7: within the bus-master (BAR1) dispatch, accesses of length 1, 2
and 4 go to the byte, word and longword accessors of the engine, with
little-endian packing and unpacking; every other length is dropped
without touching the engine or the caller's buffer. -/
theorem C7_bus_master_width_dispatch (d : Ac97Dev) (offset : Nat)
    (data : List Nat) :
    (data.length = 1 →
      d.read_bus_master offset data = (d, [d.bus_master.readb offset]) ∧
      (d.write_bus_master offset data).bus_master.ops =
        d.bus_master.ops ++ [BmOp.writeb offset (toU8 (data.getD 0 0))]) ∧
    (data.length = 2 →
      d.read_bus_master offset data =
        (d, [d.bus_master.readw offset % 2 ^ 8,
             d.bus_master.readw offset / 2 ^ 8 % 2 ^ 8]) ∧
      (d.write_bus_master offset data).bus_master.ops =
        d.bus_master.ops ++
          [BmOp.writew offset
            (toU8 (data.getD 0 0) + toU8 (data.getD 1 0) * 2 ^ 8)]) ∧
    (data.length = 4 →
      d.read_bus_master offset data =
        (d, [d.bus_master.readl offset % 2 ^ 8,
             d.bus_master.readl offset / 2 ^ 8 % 2 ^ 8,
             d.bus_master.readl offset / 2 ^ 16 % 2 ^ 8,
             d.bus_master.readl offset / 2 ^ 24 % 2 ^ 8]) ∧
      (d.write_bus_master offset data).bus_master.ops =
        d.bus_master.ops ++
          [BmOp.writel offset
            (toU8 (data.getD 0 0) + toU8 (data.getD 1 0) * 2 ^ 8 +
             toU8 (data.getD 2 0) * 2 ^ 16 +
             toU8 (data.getD 3 0) * 2 ^ 24)]) ∧
    (data.length ≠ 1 → data.length ≠ 2 → data.length ≠ 4 →
      d.read_bus_master offset data = (d, data) ∧
      d.write_bus_master offset data = d) := by
  refine ⟨fun h => ⟨?_, ?_⟩, fun h => ⟨?_, ?_⟩, fun h => ⟨?_, ?_⟩,
    fun h1 h2 h4 => ⟨?_, ?_⟩⟩
  all_goals
    simp_all [Ac97Dev.read_bus_master, Ac97Dev.write_bus_master,
      Ac97BusMaster.writeb, Ac97BusMaster.writew, Ac97BusMaster.writel]

/-- C7 witness: a 1-byte read and a 3-byte (dropped) write on
`devSample`'s bus-master dispatch. -/
theorem C7_witness :
    devSample.read_bus_master 0 [5] =
        (devSample, [devSample.bus_master.readb 0]) ∧
      devSample.write_bus_master 0 [9, 9, 9] = devSample :=
  ⟨((C7_bus_master_width_dispatch devSample 0 [5]).1 (by decide)).1,
   ((C7_bus_master_width_dispatch devSample 0 [9, 9, 9]).2.2.2 (by decide)
      (by decide) (by decide)).2⟩

/-- C9: the encoder is an unconditional stub: `process_cmd` returns
`InvalidOperation` for every command, and `process_event_fd` and
`take_resource_id_to_notify_eos` return `None` for every stream id, in
every case leaving the (stateless) encoder unchanged. -/
theorem C9_encoder_stub {Cmd Ctx RB Resp : Type} (e : Encoder)
    (cmd : Cmd) (ctx : Ctx) (rb : RB) (sid : Nat) :
    e.process_cmd cmd ctx rb =
        (e, (Except.error VideoError.InvalidOperation :
              Except VideoError Resp)) ∧
      e.process_event_fd sid = (e, (none : Option (List Resp))) ∧
      e.take_resource_id_to_notify_eos sid = (e, none) :=
  ⟨rfl, rfl, rfl⟩

/-- C5: `allocate_io_bars` without a prior `assign_address` is the fatal
`expect` path; once `assign_address` has run, the call never panics. -/
theorem C5_allocate_requires_address (d : Ac97Dev) (a : PciAddress)
    (res : SystemAllocator) :
    (d.pci_address = none → d.allocate_io_bars res = PanicOr.panic) ∧
      ∃ out, (d.assign_address a).allocate_io_bars res = PanicOr.ok out := by
  constructor
  · intro h
    unfold Ac97Dev.allocate_io_bars
    rw [h]
  · simp only [Ac97Dev.assign_address, Ac97Dev.allocate_io_bars]
    repeat' split
    all_goals exact ⟨_, rfl⟩

/-- C5 witness: a fresh device panics; after `assign_address` it does
not. -/
theorem C5_witness :
    ((Ac97Dev.new bmSample).pci_address = none →
      (Ac97Dev.new bmSample).allocate_io_bars ⟨[], []⟩ = PanicOr.panic) ∧
      ∃ out, ((Ac97Dev.new bmSample).assign_address
          ⟨0, 0, 0⟩).allocate_io_bars ⟨[], []⟩ = PanicOr.ok out :=
  C5_allocate_requires_address (Ac97Dev.new bmSample) ⟨0, 0, 0⟩ ⟨[], []⟩

/-! ## Frame lemmas for the dispatch -/

theorem read_bar_fst (d : Ac97Dev) (addr : Nat) (data : List Nat) :
    (d.read_bar addr data).1 = d := by
  unfold Ac97Dev.read_bar Ac97Dev.read_mixer Ac97Dev.read_bus_master
  repeat' split
  all_goals rfl

theorem write_bar_config_regs (d : Ac97Dev) (addr : Nat)
    (data : List Nat) :
    (d.write_bar addr data).config_regs = d.config_regs := by
  unfold Ac97Dev.write_bar Ac97Dev.write_mixer Ac97Dev.write_bus_master
  repeat' split
  all_goals rfl

theorem step_config_identity (d : Ac97Dev) (op : DevOp) :
    (d.step op).config_regs.identity = d.config_regs.identity := by
  cases op with
  | assignAddress a => rfl
  | assignIrq e r n p => rfl
  | readBar addr data =>
    show (d.read_bar addr data).1.config_regs.identity = _
    rw [read_bar_fst]
  | writeBar addr data =>
    show (d.write_bar addr data).config_regs.identity = _
    rw [write_bar_config_regs]
  | writeConfig i o data => rfl

theorem run_config_identity (d : Ac97Dev) (ops : List DevOp) :
    (d.run ops).config_regs.identity = d.config_regs.identity := by
  induction ops generalizing d with
  | nil => rfl
  | cons op ops ih =>
    rw [show d.run (op :: ops) = (d.step op).run ops from rfl, ih,
      step_config_identity]

theorem add_pci_bar_identity (c : PciConfiguration)
    (cfg : PciBarConfiguration) (c' : PciConfiguration)
    (h : c.add_pci_bar cfg = Except.ok c') :
    c'.identity = c.identity := by
  unfold PciConfiguration.add_pci_bar at h
  split at h
  · exact absurd h (by simp)
  · cases h
    rfl

/-- C8: every `Ac97Dev` is constructed with vendor ID `0x8086`, device ID
`0x2415`, class `MultimediaController`/`AudioDevice`, the standard device
header type, subsystem vendor ID `0x8086` and subsystem ID `0x1`; and no
subsequent device operation (address or interrupt assignment, BAR
accesses, configuration writes, BAR allocation) changes these values. -/
theorem C8_pci_identity (bm : Ac97BusMaster) (d : Ac97Dev)
    (ops : List DevOp) (res : SystemAllocator)
    (out : Except PciDeviceError (List (Nat × Nat)) × Ac97Dev ×
      SystemAllocator) :
    (Ac97Dev.new bm).config_regs.identity =
        (0x8086, 0x2415, PciClassCode.MultimediaController,
          PciMultimediaSubclass.AudioDevice, PciHeaderType.Device,
          0x8086, 0x1) ∧
      (d.run ops).config_regs.identity = d.config_regs.identity ∧
      (d.allocate_io_bars res = PanicOr.ok out →
        out.2.1.config_regs.identity = d.config_regs.identity) := by
  refine ⟨rfl, run_config_identity d ops, fun h => ?_⟩
  unfold Ac97Dev.allocate_io_bars at h
  split at h
  · exact absurd h (by simp)
  · split at h
    · cases h; rfl
    · split at h
      · cases h; rfl
      · rename_i cfg1 h1
        split at h
        · cases h
          exact add_pci_bar_identity _ _ _ h1
        · split at h
          · cases h
            exact add_pci_bar_identity _ _ _ h1
          · rename_i cfg2 h2
            cases h
            show cfg2.identity = _
            rw [add_pci_bar_identity _ _ _ h2,
              add_pci_bar_identity _ _ _ h1]

/-- C8 witness: the fresh sample device carries the fixed identity, a
write-bar and a config write preserve it, and a successful allocation
preserves it. -/
theorem C8_witness :
    (Ac97Dev.new bmSample).config_regs.identity =
        (0x8086, 0x2415, PciClassCode.MultimediaController,
          PciMultimediaSubclass.AudioDevice, PciHeaderType.Device,
          0x8086, 0x1) ∧
      (devSample.run [DevOp.writeBar 0x1000 [1, 2],
          DevOp.writeConfig 3 0 [7]]).config_regs.identity =
        devSample.config_regs.identity :=
  ⟨(C8_pci_identity bmSample devSample [] ⟨[], []⟩
      (Except.error (PciDeviceError.IoAllocationFailed 0 0), devSample,
        ⟨[], []⟩)).1,
   (C8_pci_identity bmSample devSample
      [DevOp.writeBar 0x1000 [1, 2], DevOp.writeConfig 3 0 [7]] ⟨[], []⟩
      (Except.error (PciDeviceError.IoAllocationFailed 0 0), devSample,
        ⟨[], []⟩)).2.1⟩

/-- C4: with a PCI address assigned and a fresh configuration space,
`allocate_io_bars` places exactly two requests on the low-MMIO allocator
— size `MIXER_REGS_SIZE` aligned to `MIXER_REGS_SIZE` tagged BAR 0, then
size `MASTER_REGS_SIZE` aligned to `MASTER_REGS_SIZE` tagged BAR 1 —
registers the granted addresses as BAR0 and BAR1 and returns
`[(mixer, MIXER_REGS_SIZE), (master, MASTER_REGS_SIZE)]`; an allocator
refusal of either range yields `IoAllocationFailed` with that range's
size, and a configuration-space rejection of a BAR yields
`IoRegistrationFailed` with that BAR's address. -/
theorem C4_allocate_io_bars (d : Ac97Dev) (a : PciAddress) (m n : Nat)
    (rq : List AllocRequest) (ha : d.pci_address = some a)
    (hb : d.config_regs.bars = []) :
    (∃ d', d.allocate_io_bars ⟨[some m, some n], rq⟩ =
        PanicOr.ok
          (Except.ok [(m, MIXER_REGS_SIZE), (n, MASTER_REGS_SIZE)], d',
           ⟨[],
            rq ++
              [⟨MIXER_REGS_SIZE, a.bus, a.dev, a.func, 0,
                 "ac97-mixer_regs", MIXER_REGS_SIZE⟩] ++
              [⟨MASTER_REGS_SIZE, a.bus, a.dev, a.func, 1,
                 "ac97-master_regs", MASTER_REGS_SIZE⟩]⟩) ∧
        d'.config_regs.bars =
          [⟨0, m, MIXER_REGS_SIZE⟩, ⟨1, n, MASTER_REGS_SIZE⟩] ∧
        d'.config_regs.get_bar_addr 0 = m ∧
        d'.config_regs.get_bar_addr 1 = n) ∧
      (∀ rest, ∃ d' res' e,
        d.allocate_io_bars ⟨none :: rest, rq⟩ =
          PanicOr.ok
            (Except.error
              (PciDeviceError.IoAllocationFailed MIXER_REGS_SIZE e),
             d', res')) ∧
      (∀ rest, ∃ d' res' e,
        d.allocate_io_bars ⟨some m :: none :: rest, rq⟩ =
          PanicOr.ok
            (Except.error
              (PciDeviceError.IoAllocationFailed MASTER_REGS_SIZE e),
             d', res')) ∧
      (∀ d2 : Ac97Dev, d2.pci_address = some a →
        d2.config_regs.bars = [⟨0, 0, MIXER_REGS_SIZE⟩] →
        ∃ d' res' e,
          d2.allocate_io_bars ⟨[some m, some n], rq⟩ =
            PanicOr.ok
              (Except.error (PciDeviceError.IoRegistrationFailed m e),
               d', res')) := by
  obtain ⟨⟨vid, did, cc, sc, ht, svid, sid, bars, irq0, rws⟩, pa,
    ie, ire, bmm, mx⟩ := d
  cases ha
  cases hb
  refine ⟨⟨⟨⟨vid, did, cc, sc, ht, svid, sid,
      [⟨0, m, MIXER_REGS_SIZE⟩, ⟨1, n, MASTER_REGS_SIZE⟩], irq0, rws⟩,
      some a, ie, ire, bmm, mx⟩, rfl, rfl, rfl, rfl⟩,
    fun rest => ⟨_, _, 0, rfl⟩, fun rest => ⟨_, _, 0, rfl⟩,
    fun d2 ha2 hb2 => ?_⟩
  obtain ⟨⟨vid2, did2, cc2, sc2, ht2, svid2, sid2, bars2, irq2, rws2⟩,
    pa2, ie2, ire2, bmm2, mx2⟩ := d2
  cases ha2
  cases hb2
  exact ⟨_, _, 0, rfl⟩

/-- C4 witness: a concrete successful allocation (addresses `0x2000_0000`
and `0x2000_1000`) and the refusal shapes, on a fresh device assigned
address 0:0.0. -/
theorem C4_witness :
    (∃ d', ((Ac97Dev.new bmSample).assign_address
          ⟨0, 0, 0⟩).allocate_io_bars
          ⟨[some 0x20000000, some 0x20001000], []⟩ =
        PanicOr.ok
          (Except.ok
            [(0x20000000, MIXER_REGS_SIZE),
             (0x20001000, MASTER_REGS_SIZE)], d',
           ⟨[],
            [] ++
              [⟨MIXER_REGS_SIZE, 0, 0, 0, 0, "ac97-mixer_regs",
                 MIXER_REGS_SIZE⟩] ++
              [⟨MASTER_REGS_SIZE, 0, 0, 0, 1, "ac97-master_regs",
                 MASTER_REGS_SIZE⟩]⟩) ∧
        d'.config_regs.bars =
          [⟨0, 0x20000000, MIXER_REGS_SIZE⟩,
           ⟨1, 0x20001000, MASTER_REGS_SIZE⟩] ∧
        d'.config_regs.get_bar_addr 0 = 0x20000000 ∧
        d'.config_regs.get_bar_addr 1 = 0x20001000) ∧
      (∀ rest, ∃ d' res' e,
        ((Ac97Dev.new bmSample).assign_address
            ⟨0, 0, 0⟩).allocate_io_bars ⟨none :: rest, []⟩ =
          PanicOr.ok
            (Except.error
              (PciDeviceError.IoAllocationFailed MIXER_REGS_SIZE e),
             d', res')) ∧
      (∀ rest, ∃ d' res' e,
        ((Ac97Dev.new bmSample).assign_address
            ⟨0, 0, 0⟩).allocate_io_bars
            ⟨some 0x20000000 :: none :: rest, []⟩ =
          PanicOr.ok
            (Except.error
              (PciDeviceError.IoAllocationFailed MASTER_REGS_SIZE e),
             d', res')) ∧
      (∀ d2 : Ac97Dev, d2.pci_address = some ⟨0, 0, 0⟩ →
        d2.config_regs.bars = [⟨0, 0, MIXER_REGS_SIZE⟩] →
        ∃ d' res' e,
          d2.allocate_io_bars ⟨[some 0x20000000, some 0x20001000], []⟩ =
            PanicOr.ok
              (Except.error
                (PciDeviceError.IoRegistrationFailed 0x20000000 e),
               d', res')) :=
  C4_allocate_io_bars ((Ac97Dev.new bmSample).assign_address ⟨0, 0, 0⟩)
    ⟨0, 0, 0⟩ 0x20000000 0x20001000 [] rfl rfl

/-! ## Interrupt-handle delivery accounting -/

theorem irqDeliveries_eq_setIrqPairs (bm : Ac97BusMaster) :
    bm.irqDeliveries = setIrqPairs bm.ops := rfl

theorem setIrqPairs_append (l1 l2 : List BmOp) :
    setIrqPairs (l1 ++ l2) = setIrqPairs l1 ++ setIrqPairs l2 :=
  List.filterMap_append _ _ _

theorem write_bus_master_ops (d : Ac97Dev) (off : Nat) (data : List Nat) :
    ∃ tail, (d.write_bus_master off data).bus_master.ops =
      d.bus_master.ops ++ tail ∧ setIrqPairs tail = [] := by
  unfold Ac97Dev.write_bus_master
  repeat' split
  all_goals first
    | exact ⟨_, rfl, rfl⟩
    | exact ⟨[], (List.append_nil _).symm, rfl⟩

theorem write_bus_master_frame (d : Ac97Dev) (off : Nat)
    (data : List Nat) :
    (d.write_bus_master off data).bus_master.irqDeliveries =
        d.bus_master.irqDeliveries ∧
      (d.write_bus_master off data).irq_evt = d.irq_evt ∧
      (d.write_bus_master off data).irq_resample_evt =
        d.irq_resample_evt := by
  refine ⟨?_, ?_, ?_⟩
  · obtain ⟨tail, h1, h2⟩ := write_bus_master_ops d off data
    rw [irqDeliveries_eq_setIrqPairs, irqDeliveries_eq_setIrqPairs, h1,
      setIrqPairs_append, h2, List.append_nil]
  · unfold Ac97Dev.write_bus_master
    repeat' split
    all_goals rfl
  · unfold Ac97Dev.write_bus_master
    repeat' split
    all_goals rfl

theorem write_mixer_frame (d : Ac97Dev) (off : Nat) (data : List Nat) :
    (d.write_mixer off data).bus_master.ops = d.bus_master.ops ∧
      (d.write_mixer off data).irq_evt = d.irq_evt ∧
      (d.write_mixer off data).irq_resample_evt = d.irq_resample_evt :=
  ⟨rfl, rfl, rfl⟩

theorem pendingIrq_le_one (d : Ac97Dev) : d.pendingIrq ≤ 1 := by
  unfold Ac97Dev.pendingIrq
  split
  · exact Nat.le_refl 1
  · exact Nat.zero_le 1

theorem write_bar_master_delivery (d : Ac97Dev) (addr : Nat)
    (data : List Nat) (e r : Nat) (he : d.irq_evt = some e)
    (hr : d.irq_resample_evt = some r) (h0 : ¬ d.inMixerWindow addr)
    (h1 : d.inMasterWindow addr) :
    (∃ tail, (d.write_bar addr data).bus_master.ops =
        d.bus_master.ops ++ BmOp.setIrq e r :: tail ∧
        setIrqPairs tail = []) ∧
      (d.write_bar addr data).irq_evt = none ∧
      (d.write_bar addr data).irq_resample_evt = none := by
  have hx : d.write_bar addr data =
      ({ d with
          irq_evt := none
          irq_resample_evt := none
          bus_master :=
            d.bus_master.set_irq_event_fd e r } : Ac97Dev).write_bus_master
        (addr - d.config_regs.get_bar_addr 1) data := by
    unfold Ac97Dev.write_bar
    rw [if_neg h0, if_pos h1, he, hr]
  rw [hx]
  refine ⟨?_, (write_bus_master_frame _ _ _).2.1,
    (write_bus_master_frame _ _ _).2.2⟩
  obtain ⟨tail, ht, hs⟩ := write_bus_master_ops
    ({ d with
        irq_evt := none
        irq_resample_evt := none
        bus_master := d.bus_master.set_irq_event_fd e r } : Ac97Dev)
    (addr - d.config_regs.get_bar_addr 1) data
  refine ⟨tail, ?_, hs⟩
  rw [ht]
  show (d.bus_master.ops ++ [BmOp.setIrq e r]) ++ tail =
    d.bus_master.ops ++ BmOp.setIrq e r :: tail
  rw [List.append_assoc]
  rfl

theorem write_bar_master_no_delivery (d : Ac97Dev) (addr : Nat)
    (data : List Nat)
    (hnp : d.irq_evt = none ∨ d.irq_resample_evt = none)
    (h0 : ¬ d.inMixerWindow addr) (h1 : d.inMasterWindow addr) :
    (d.write_bar addr data).bus_master.irqDeliveries =
        d.bus_master.irqDeliveries ∧
      (d.write_bar addr data).irq_evt = none ∧
      (d.write_bar addr data).irq_resample_evt = none := by
  have hx : d.write_bar addr data =
      ({ d with
          irq_evt := none
          irq_resample_evt := none } : Ac97Dev).write_bus_master
        (addr - d.config_regs.get_bar_addr 1) data := by
    unfold Ac97Dev.write_bar
    rw [if_neg h0, if_pos h1]
    cases he : d.irq_evt with
    | none => cases hre : d.irq_resample_evt <;> rfl
    | some e =>
      cases hre : d.irq_resample_evt with
      | none => rfl
      | some r => simp_all
  rw [hx]
  exact ⟨(write_bus_master_frame _ _ _).1,
    (write_bus_master_frame _ _ _).2.1,
    (write_bus_master_frame _ _ _).2.2⟩

theorem write_bar_outside (d : Ac97Dev) (addr : Nat) (data : List Nat)
    (h0 : ¬ d.inMixerWindow addr) (h1 : ¬ d.inMasterWindow addr) :
    d.write_bar addr data = d := by
  unfold Ac97Dev.write_bar
  rw [if_neg h0, if_neg h1]

theorem step_deliveries_le (d : Ac97Dev) (op : DevOp) :
    (d.step op).bus_master.irqDeliveries.length + (d.step op).pendingIrq ≤
      d.bus_master.irqDeliveries.length + d.pendingIrq +
        (if op.isAssignIrq then 1 else 0) := by
  cases op with
  | assignAddress a =>
    have h1 : (d.step (DevOp.assignAddress a)).bus_master.irqDeliveries =
        d.bus_master.irqDeliveries := rfl
    have h2 : (d.step (DevOp.assignAddress a)).pendingIrq =
        d.pendingIrq := rfl
    rw [h1, h2]
    simp [DevOp.isAssignIrq]
  | writeConfig i o dt =>
    have h1 : (d.step (DevOp.writeConfig i o dt)).bus_master.irqDeliveries =
        d.bus_master.irqDeliveries := rfl
    have h2 : (d.step (DevOp.writeConfig i o dt)).pendingIrq =
        d.pendingIrq := rfl
    rw [h1, h2]
    simp [DevOp.isAssignIrq]
  | assignIrq e r n p =>
    have h1 : (d.step (DevOp.assignIrq e r n p)).bus_master.irqDeliveries =
        d.bus_master.irqDeliveries := rfl
    have h2 : (d.step (DevOp.assignIrq e r n p)).pendingIrq = 1 := rfl
    rw [h1, h2]
    simp only [DevOp.isAssignIrq, if_true]
    omega
  | readBar addr dt =>
    have h : (d.read_bar addr dt).1 = d := read_bar_fst d addr dt
    show (d.read_bar addr dt).1.bus_master.irqDeliveries.length +
        (d.read_bar addr dt).1.pendingIrq ≤ _
    rw [h]
    simp [DevOp.isAssignIrq]
  | writeBar addr dt =>
    show (d.write_bar addr dt).bus_master.irqDeliveries.length +
        (d.write_bar addr dt).pendingIrq ≤ _
    simp only [DevOp.isAssignIrq, if_false]
    by_cases h0 : d.inMixerWindow addr
    · rw [write_bar_of_mixer _ _ _ h0]
      have h1 : (d.write_mixer (addr - d.config_regs.get_bar_addr 0)
          dt).bus_master.irqDeliveries = d.bus_master.irqDeliveries := by
        rw [irqDeliveries_eq_setIrqPairs, irqDeliveries_eq_setIrqPairs,
          (write_mixer_frame d _ dt).1]
      have h2 : (d.write_mixer (addr - d.config_regs.get_bar_addr 0)
          dt).pendingIrq = d.pendingIrq := rfl
      rw [h1, h2]
      omega
    · by_cases h1 : d.inMasterWindow addr
      · cases he : d.irq_evt with
        | none =>
          obtain ⟨hd, hie, hire⟩ :=
            write_bar_master_no_delivery d addr dt (Or.inl he) h0 h1
          have hp : (d.write_bar addr dt).pendingIrq = 0 := by
            simp [Ac97Dev.pendingIrq, hie, hire]
          rw [hd, hp]
          omega
        | some e =>
          cases hre : d.irq_resample_evt with
          | none =>
            obtain ⟨hd, hie, hire⟩ :=
              write_bar_master_no_delivery d addr dt (Or.inr hre) h0 h1
            have hp : (d.write_bar addr dt).pendingIrq = 0 := by
              simp [Ac97Dev.pendingIrq, hie, hire]
            rw [hd, hp]
            omega
          | some r =>
            obtain ⟨⟨tail, ht, hs⟩, hie, hire⟩ :=
              write_bar_master_delivery d addr dt e r he hre h0 h1
            have hd : (d.write_bar addr dt).bus_master.irqDeliveries =
                d.bus_master.irqDeliveries ++ [(e, r)] := by
              rw [irqDeliveries_eq_setIrqPairs, ht, setIrqPairs_append,
                show setIrqPairs (BmOp.setIrq e r :: tail) =
                  (e, r) :: setIrqPairs tail from rfl, hs]
              rfl
            have hp : (d.write_bar addr dt).pendingIrq = 0 := by
              simp [Ac97Dev.pendingIrq, hie, hire]
            have hpd : d.pendingIrq = 1 := by
              simp [Ac97Dev.pendingIrq, he, hre]
            rw [hd, hp, hpd, List.length_append]
            simp
      · rw [write_bar_outside d addr dt h0 h1]
        omega

theorem run_append (d : Ac97Dev) (l1 l2 : List DevOp) :
    d.run (l1 ++ l2) = (d.run l1).run l2 := by
  induction l1 generalizing d with
  | nil => rfl
  | cons op ops ih => exact ih (d.step op)

theorem run_deliveries_le (ops : List DevOp) (d : Ac97Dev) :
    (d.run ops).bus_master.irqDeliveries.length + (d.run ops).pendingIrq ≤
      d.bus_master.irqDeliveries.length + d.pendingIrq +
        assignCount ops := by
  induction ops generalizing d with
  | nil => simp [Ac97Dev.run, assignCount]
  | cons op ops ih =>
    have h1 := ih (d.step op)
    have h2 := step_deliveries_le d op
    have h3 : d.run (op :: ops) = (d.step op).run ops := rfl
    have h4 : assignCount (op :: ops) =
        (if op.isAssignIrq then 1 else 0) + assignCount ops := rfl
    rw [h3, h4]
    cases hb : op.isAssignIrq <;> simp [hb] at h2 ⊢ <;> omega

theorem step_deliveries_of_no_write (d : Ac97Dev) (op : DevOp)
    (h : op.isWriteBar = false) :
    (d.step op).bus_master.irqDeliveries = d.bus_master.irqDeliveries := by
  cases op with
  | assignAddress a => rfl
  | assignIrq e r n p => rfl
  | readBar addr dt =>
    show (d.read_bar addr dt).1.bus_master.irqDeliveries = _
    rw [read_bar_fst]
  | writeBar addr dt => cases h
  | writeConfig i o dt => rfl

theorem run_deliveries_of_no_write (ops : List DevOp) (d : Ac97Dev)
    (h : ∀ op ∈ ops, op.isWriteBar = false) :
    (d.run ops).bus_master.irqDeliveries = d.bus_master.irqDeliveries := by
  induction ops generalizing d with
  | nil => rfl
  | cons op ops ih =>
    rw [show d.run (op :: ops) = (d.step op).run ops from rfl,
      ih (d.step op) fun o ho => h o (List.mem_cons_of_mem _ ho),
      step_deliveries_of_no_write d op (h op (List.mem_cons_self _ _))]

theorem assignCount_zero (ops : List DevOp)
    (h : ∀ op ∈ ops, op.isAssignIrq = false) : assignCount ops = 0 := by
  induction ops with
  | nil => rfl
  | cons op ops ih =>
    simp [assignCount, h op (List.mem_cons_self _ _),
      ih fun o ho => h o (List.mem_cons_of_mem _ ho)]

/-- C1 counterexample: re-assigning the interrupt handles after a
bus-master write re-arms the handoff, so the sequence assign, bus-master
write, assign, bus-master write delivers two handle pairs into the
engine on one device instance — not at most one. -/
theorem C1_counterexample :
    ((devSample.run
        [DevOp.assignIrq 1 2 5 PciInterruptPin.IntA,
         DevOp.writeBar 0x2000 [0],
         DevOp.assignIrq 3 4 5 PciInterruptPin.IntA,
         DevOp.writeBar 0x2000 [0]]).bus_master.irqDeliveries) =
      [(1, 2), (3, 4)] := by
  rfl

/-- C1 (amended): (a) in any operation sequence in which every interrupt
assignment precedes every BAR write, the handles are delivered into the
engine at most once; (b) a write in the bus-master window with both
handles pending delivers exactly that pair, placed on the engine's
operation trace before anything the write itself dispatches, and clears
both pending slots; (c) a write anywhere with either pending slot empty
delivers nothing. -/
theorem C1_handoff_amended :
    (∀ (bm : Ac97BusMaster) (ops1 ops2 : List DevOp),
      bm.irqDeliveries = [] →
      (∀ op ∈ ops1, op.isWriteBar = false) →
      (∀ op ∈ ops2, op.isAssignIrq = false) →
      ((Ac97Dev.new bm).run
          (ops1 ++ ops2)).bus_master.irqDeliveries.length ≤ 1) ∧
    (∀ (d : Ac97Dev) (addr : Nat) (data : List Nat) (e r : Nat),
      d.irq_evt = some e → d.irq_resample_evt = some r →
      ¬ d.inMixerWindow addr → d.inMasterWindow addr →
      (∃ tail, (d.write_bar addr data).bus_master.ops =
          d.bus_master.ops ++ BmOp.setIrq e r :: tail ∧
          setIrqPairs tail = []) ∧
        (d.write_bar addr data).irq_evt = none ∧
        (d.write_bar addr data).irq_resample_evt = none) ∧
    (∀ (d : Ac97Dev) (addr : Nat) (data : List Nat),
      d.irq_evt = none ∨ d.irq_resample_evt = none →
      (d.write_bar addr data).bus_master.irqDeliveries =
        d.bus_master.irqDeliveries) := by
  refine ⟨fun bm ops1 ops2 h0 h1 h2 => ?_,
    fun d addr data e r he hr h0 h1 =>
      write_bar_master_delivery d addr data e r he hr h0 h1,
    fun d addr data hnp => ?_⟩
  · rw [run_append]
    have hA := run_deliveries_of_no_write ops1 (Ac97Dev.new bm) h1
    have hB := run_deliveries_le ops2 ((Ac97Dev.new bm).run ops1)
    have hC : (Ac97Dev.new bm).bus_master.irqDeliveries = [] := h0
    have hD := pendingIrq_le_one ((Ac97Dev.new bm).run ops1)
    have hE := assignCount_zero ops2 h2
    rw [hA, hC, hE] at hB
    simp only [List.length_nil] at hB
    omega
  · by_cases h0 : d.inMixerWindow addr
    · rw [write_bar_of_mixer _ _ _ h0, irqDeliveries_eq_setIrqPairs,
        irqDeliveries_eq_setIrqPairs, (write_mixer_frame d _ data).1]
    · by_cases h1 : d.inMasterWindow addr
      · exact (write_bar_master_no_delivery d addr data hnp h0 h1).1
      · rw [write_bar_outside d addr data h0 h1]

/-- C1 witness: the empty sequence delivers nothing, and a bus-master
write on a device with no pending handles (the fresh `devSample`)
delivers nothing. -/
theorem C1_witness :
    ((Ac97Dev.new bmSample).run
        ([] ++ [])).bus_master.irqDeliveries.length ≤ 1 ∧
      (devSample.write_bar 0x2000 [0]).bus_master.irqDeliveries =
        devSample.bus_master.irqDeliveries :=
  ⟨C1_handoff_amended.1 bmSample [] [] rfl
      (fun op hop => absurd hop (List.not_mem_nil op))
      (fun op hop => absurd hop (List.not_mem_nil op)),
   C1_handoff_amended.2.2 devSample 0x2000 [0] (Or.inl rfl)⟩
